import Mathlib

/-!
# Verification of the IoTaWatt PVOutput uploader (`Firmware/IotaWatt/pvoutput.cpp`)

This file shallowly embeds the live code of `pvoutput.cpp` (lines 1-1131; the
trailing `#if 0` block is dead code and is not modelled) and settles the frozen
claims about it.  C `double` values are modelled as `ℚ`; the machine integers
involved never approach their width, so they are modelled as `Nat`/`Int`.
External collaborators (the IotaLog, WiFi, the heap, the async HTTP client)
are presented to each tick as an environment record, exactly the values the
code reads from them during that tick.
-/

namespace PVOutput

/-! ## String scanning primitives (`pvoutput.cpp` lines 75-104)

`ParseFixedInteger(tmp, src, size, value, min, max)` copies the next `size`
characters of `src` into `tmp`, runs `sscanf(tmp, "%u", value)` and range
checks the result; it returns `src + size` on success and `nullptr` on any
failure (including a null `src`, which lets the calls chain).  `src` is
modelled as an optional index into the response text, so `nullptr` is `none`
and pointer arithmetic is index arithmetic.  Reading one character past the
end of the text (the C string's terminating NUL) yields `Char.ofNat 0`. -/

/-- Value of a digit string, most significant digit first. -/
def digitsVal (ds : List Char) : Nat :=
  ds.foldl (fun a c => 10 * a + (c.toNat - 48)) 0

/-- `sscanf(tmp, "%u", &v)` on the short C string `tmp`: skip leading
whitespace, then read a maximal nonempty run of decimal digits (the inputs the
firmware meets carry no sign character). Returns `none` when no digit is
found, mirroring a `sscanf` result different from 1. -/
def scanU (tmp : List Char) : Option Nat :=
  let t := tmp.dropWhile Char.isWhitespace
  let ds := t.takeWhile Char.isDigit
  if ds.isEmpty then none else some (digitsVal ds)

/-- `ParseFixedInteger` (`pvoutput.cpp:75`): on success returns the parsed
value together with the advanced source index `pos + size` (the C code always
advances by the full field width, even if fewer characters were consumed). -/
def ParseFixedInteger (text : List Char) (src : Option Nat) (size vmin vmax : Nat) :
    Option (Nat × Nat) :=
  match src with
  | none => none
  | some pos =>
    match scanU ((text.drop pos).take size) with
    | none => none
    | some v => if v < vmin ∨ vmax < v then none else some (v, pos + size)

/-- `ParseExpectedCharacter` (`pvoutput.cpp:95`): demands the character at the
current index (NUL when past the end) and advances by one. -/
def ParseExpectedCharacter (text : List Char) (src : Option Nat) (expected : Char) :
    Option Nat :=
  match src with
  | none => none
  | some pos => if text.getD pos (Char.ofNat 0) = expected then some (pos + 1) else none

/-! ## Local calendar time (the `DateTime` class used by the firmware)

The firmware's `DateTime` is the RTClib-style class: years are stored as an
offset from 2000, leap years are `y % 4 == 0` (exact for 2000-2099), and
`unixtime()` adds the seconds from 1970 to 2000.  `dtUnixtime` reproduces
`DateTime(y,m,d,h,mi,s).unixtime()` for years 2000-2099. -/

/-- Cumulative day count of the months strictly before month `m` in a
non-leap year (`daysInMonth` table of the DateTime class, summed). -/
def daysBeforeMonth (m : Nat) : Nat :=
  [0, 0, 31, 59, 90, 120, 151, 181, 212, 243, 273, 304, 334].getD m 0

/-- `date2days(y, m, d)` of the DateTime class: days since 2000-01-01,
counting that day as 0. -/
def date2days (y m d : Nat) : Nat :=
  let yo := y - 2000
  let leapAdd := if 2 < m ∧ yo % 4 = 0 then 1 else 0
  d + daysBeforeMonth m + leapAdd + 365 * yo + (yo + 3) / 4 - 1

/-- `DateTime(y,m,d,h,mi,s).unixtime()`: seconds since 1970-01-01 UTC of the
given civil datetime (946684800 is `SECONDS_FROM_1970_TO_2000`). -/
def dtUnixtime (y m d h mi s : Nat) : Nat :=
  946684800 + ((date2days y m d) * 24 + h) * 3600 + mi * 60 + s

/-! ## The `getstatus` response parser (`pvoutput.cpp` lines 669-706)

The wait state parses the fixed-width `YYYYMMDD,HH:MM,` timestamp at the head
of the response and, on success, builds `DateTime(year,month,day,hour,minute,0)`.
Nothing after the second comma is ever read. -/

/-- The chained `ParseFixedInteger`/`ParseExpectedCharacter` calls of
`pvoutput.cpp:678-692`, returning the five parsed fields on success. -/
def parseGetStatusFields (text : List Char) : Option (Nat × Nat × Nat × Nat × Nat) :=
  match ParseFixedInteger text (some 0) 4 0 9999 with
  | none => none
  | some (year, p1) =>
  match ParseFixedInteger text (some p1) 2 1 12 with
  | none => none
  | some (month, p2) =>
  match ParseFixedInteger text (some p2) 2 1 31 with
  | none => none
  | some (day, p3) =>
  match ParseExpectedCharacter text (some p3) ',' with
  | none => none
  | some p4 =>
  match ParseFixedInteger text (some p4) 2 0 23 with
  | none => none
  | some (hour, p5) =>
  match ParseExpectedCharacter text (some p5) ':' with
  | none => none
  | some p6 =>
  match ParseFixedInteger text (some p6) 2 0 59 with
  | none => none
  | some (minute, p7) =>
  match ParseExpectedCharacter text (some p7) ',' with
  | none => none
  | some _ => some (year, month, day, hour, minute)

/-- The local datetime the wait state derives from a `getstatus` reply:
`DateTime(year, month, day, hour, minute, 0).unixtime()` (`pvoutput.cpp:703`),
before the UTC conversion and boundary adjustment that follow. `none` when the
timestamp does not parse. -/
def parseGetStatusLocalDT (text : String) : Option Nat :=
  match parseGetStatusFields text.data with
  | none => none
  | some (y, mo, d, h, mi) => some (dtUnixtime y mo d h mi 0)

/-! ## The error classifier (`InterpretAddBatchStatusError`, lines 377-466) -/

/-- `ErrorOperation` (`pvoutput.cpp:368`). -/
inductive ErrorOperation where
  | RETRY_NOW
  | RETRY_PERIOD
  | SKIP
  | RESET
deriving DecidableEq, Repr

/-- `strstr(hay, needle) != nullptr`: substring containment on C strings. -/
def strstrHit (needle hay : List Char) : Bool :=
  match hay with
  | [] => needle.isEmpty
  | _ :: rest => needle.isPrefixOf hay || strstrHit needle rest

/-- `InterpretAddBatchStatusError` (`pvoutput.cpp:377`): classification by
HTTP status code and body substring.  Note the live code has **no** case for
"Moon powered", "No status found" or "Date is too far in the past": everything
not matched falls through to `RESET`. -/
def InterpretAddBatchStatusError (responseCode : Int) (responseText : String) :
    ErrorOperation :=
  if responseCode = 400 then
    if strstrHit "Date is older than".data responseText.data then .SKIP
    else if strstrHit "Date is in the future".data responseText.data then .RETRY_PERIOD
    else .RESET
  else if responseCode = 403 then
    if strstrHit "Exceeded 60 requests per hour".data responseText.data then .RETRY_PERIOD
    else .RESET
  else .RESET

/-! ## The service state machine (`pvoutputService`, lines 489-1100)

The service is a cooperative tick function over function-local `static`
variables plus the process globals `pvoutputStop` / `pvoutputRestart` /
`pvoutputStarted` / `pvoutputConfigRevision`.  The tick reads its external
collaborators — `UNIXtime()`, `currLog`, `WiFi`, the shared `HTTPrequestFree`
counter, the heap and the state of the one in-flight `asyncHTTPrequest` — at
well-defined points; an `Env` record supplies those reads for one tick.

Abstractions, recorded here so the model can be diffed against the source:
* `oldRecord` / `logRecord` / `dayStartLogRecord` hold log measurements that
  feed only `PVOutputBuildPost` (modelled separately over `ℚ`, see below).
  The tick model keeps the two values the control flow actually branches on:
  whether `logRecord->logHours == oldRecord->logHours` (`Env.elapsedZero`)
  and the CSV entry string `pvoutputSendData` appends (`Env.entry`).
* `logReadKey` fills measurement fields of the record it is given; the key
  the caller stored is on a `reportInterval` boundary and the code `assert`s
  it stays one, so `oldRecord->UNIXtime` keeps the value the caller wrote.
* `lastRequestTime` / `lastBufferTime` / the local `pvoutputLastPost` feed
  only log messages and each other, never a branch; they are omitted.
* `HTTPrequestFree` is shared with the other reporter services, so a tick
  observes it as a boolean (`Env.httpSlotFree`); the tick's own net effect on
  the counter is reported in `Output.slotDelta`. -/

/-- The `states` enum of `pvoutputService` (`pvoutput.cpp:493`).  The source
constructor `initialize` is spelled `stInit` here. -/
inductive PVState where
  | stInit
  | queryLastPostTime
  | queryLastPostTimeWait
  | post
  | sendPost
  | waitPost
deriving DecidableEq, Repr

/-- Configuration globals the service reads (`pvoutputReportInterval`,
`localTimeDiff`, `pvoutputBulkSend`).  `MAX_BULK_SEND = 30` and
`reqDataLimit = 4000` are literals in the tick function. -/
structure Cfg where
  reportInterval : Nat
  localTimeDiff : Int
  bulkSend : Nat
deriving DecidableEq, Repr

/-- The persistent state of the service: the function-local statics of
`pvoutputService` together with the process globals it consults. -/
structure Machine where
  state : PVState
  stop : Bool
  restart : Bool
  started : Bool
  configRevision : Int
  reqData : String
  reqEntries : Nat
  retryCount : Nat
  hasRequest : Bool
  UnixNextPost : Nat
deriving DecidableEq, Repr

/-- What the external world answers during one tick. -/
structure Env where
  now : Nat
  logIsOpen : Bool
  wifi : Bool
  httpSlotFree : Bool
  heapOk : Bool
  reqDone : Bool
  sendOk : Bool
  responseCode : Int
  responseText : String
  lastKey : Nat
  elapsedZero : Bool
  entry : String
deriving DecidableEq, Repr

/-- An HTTP request issued during a tick. -/
structure HttpCall where
  method : String
  url : String
  body : String
deriving DecidableEq, Repr

/-- Observable outcome of a tick: the scheduler return value, the net change
to the shared `HTTPrequestFree` counter, and any request issued. -/
structure Output where
  ret : Nat
  slotDelta : Int
  issued : Option HttpCall
deriving DecidableEq, Repr

/-- `PVOUTPUT_POST_DATA_PREFIX` (`pvoutput.cpp:6`). -/
def postDataHead : String := "c1=0&n=0&data="

/-- `MAX_PAST_POST_TIME = 13 * 24 * 60 * 60` (`pvoutput.cpp:715`). -/
def MAX_PAST_POST_TIME : Int := 1123200

/-- Modelled from the spec: whether `asyncHTTPrequest::send(&reqData, len)`
drains the `xbuf` it is handed.  The `xbuf` class is part of this repository
but not under `src/`; the spec states "on retry the same body is resent
verbatim until success or a skip decision", so sending leaves the buffer
intact. -/
def sendConsumesBody : Bool := false

/-- End of the `post` state (`pvoutput.cpp:950-967`): decide whether to move
to `sendPost`.  `realtimePost` is `reqEntries >= pvoutputBulkSend &&
UnixNextPost >= UNIXtime()`; the transition additionally needs no unfinished
in-flight request and a free HTTP slot. -/
def postTrigger (cfg : Cfg) (m : Machine) (e : Env) : Machine × Output :=
  let realtimePost := cfg.bulkSend ≤ m.reqEntries ∧ e.now ≤ m.UnixNextPost
  if ((m.hasRequest = false ∨ e.reqDone) ∧ e.httpSlotFree) ∧
     (30 ≤ m.reqEntries ∨ realtimePost ∨ 4000 ≤ m.reqData.length) then
    ({ m with state := .sendPost }, ⟨1, 0, none⟩)
  else
    (m, ⟨m.UnixNextPost, 0, none⟩)

/-- Success path of `waitPost` (`pvoutput.cpp:1077-1092`), also reached by a
`SKIP` classification: zero the retry counter, reset the buffer to the data
head, re-enter the `post` state and return 1. -/
def waitPostSuccess (m : Machine) : Machine × Output :=
  ({ m with retryCount := 0, state := .post,
            reqData := postDataHead, reqEntries := 0 }, ⟨1, 1, none⟩)

/-- Body of one tick of `pvoutputService` after the restart check: the
`switch(state)` of `pvoutput.cpp:533`.  The structure follows the source
switch case by case; comments cite the line ranges. -/
def tickCore (cfg : Cfg) (m : Machine) (e : Env) : Machine × Output :=
  match m.state with
  | .stInit =>
    -- lines 535-547
    if ¬ e.logIsOpen then (m, ⟨e.now + 5, 0, none⟩)
    else ({ m with state := .queryLastPostTime }, ⟨1, 0, none⟩)
  | .queryLastPostTime =>
    -- lines 549-592: acquire the slot, open a POST to getstatus.jsp, flush
    -- reqData, send (a failed send is only logged) and go to the wait state
    if ¬ e.wifi ∨ ¬ e.httpSlotFree then (m, ⟨e.now + 1, 0, none⟩)
    else
      ({ m with state := .queryLastPostTimeWait, hasRequest := true, reqData := "" },
       ⟨1, -1, some ⟨"POST", "HTTP://pvoutput.org/service/r2/getstatus.jsp", ""⟩⟩)
  | .queryLastPostTimeWait =>
    -- lines 594-758
    if ¬ e.reqDone then (m, ⟨1, 0, none⟩)
    else
      let m1 := { m with hasRequest := false }
      -- lines 669-758: parse the reply and initialise the posting window
      let parsePath : Machine × Output :=
        match parseGetStatusFields e.responseText.data with
        | none =>
          -- lines 693-700: invalid timestamp: raise the stop flag, go to post
          ({ m1 with stop := true, state := .post }, ⟨1, 1, none⟩)
        | some (y, mo, d, h, mi) =>
          let lastPost0 : Int := (dtUnixtime y mo d h mi 0 : Int) - cfg.localTimeDiff * 3600
          let lastPost1 : Int := if lastPost0 = 0 then (e.now : Int) else lastPost0
          let lastPost2 : Int :=
            if lastPost1 + MAX_PAST_POST_TIME < (e.now : Int)
            then (e.now : Int) - MAX_PAST_POST_TIME else lastPost1
          let lastPost3 : Nat := (lastPost2 - lastPost2 % (cfg.reportInterval : Int)).toNat
          let nextPost := lastPost3 + cfg.reportInterval - lastPost3 % cfg.reportInterval
          ({ m1 with state := .post, reqData := postDataHead, reqEntries := 0,
                     UnixNextPost := nextPost },
           ⟨nextPost, 1, none⟩)
      if e.responseCode ≠ 200 then
        match InterpretAddBatchStatusError e.responseCode e.responseText with
        | .RETRY_PERIOD =>
          -- lines 616-623: the report-interval back-off is commented out in
          -- the source; it retries the query in 5 seconds
          ({ m1 with state := .queryLastPostTime }, ⟨e.now + 5, 1, none⟩)
        | .SKIP => parsePath
        | _ =>
          ({ m1 with state := .queryLastPostTime }, ⟨e.now + 1, 1, none⟩)
      else parsePath
  | .post =>
    -- lines 761-968
    if m.stop then
      -- lines 767-785: wait out an unfinished request, then shut down
      if m.hasRequest ∧ ¬ e.reqDone then (m, ⟨1, 0, none⟩)
      else
        ({ m with started := false, state := .stInit, hasRequest := false,
                  reqData := "", reqEntries := 0, configRevision := -1 },
         ⟨0, 0, none⟩)
    else if m.hasRequest ∧ ¬ e.reqDone ∧ 4000 < m.reqData.length then
      -- lines 787-790
      (m, ⟨1, 0, none⟩)
    else if m.reqData.length < 4000 ∧ m.UnixNextPost ≤ e.lastKey then
      -- lines 886-935: collect one more measurement
      if e.elapsedZero then
        -- lines 905-912: empty period, skip one interval and return
        let np := m.UnixNextPost + cfg.reportInterval
        ({ m with UnixNextPost := np }, ⟨np, 0, none⟩)
      else
        -- lines 916-934: append the encoded entry (`pvoutputSendData`,
        -- lines 203-207) and advance to the next interval boundary
        let sep : String := if postDataHead.length < m.reqData.length then ";" else ""
        let m2 := { m with reqData := m.reqData ++ sep ++ e.entry,
                           reqEntries := m.reqEntries + 1,
                           UnixNextPost := m.UnixNextPost +
                             (cfg.reportInterval - m.UnixNextPost % cfg.reportInterval) }
        postTrigger cfg m2 e
    else postTrigger cfg m e
  | .sendPost =>
    -- lines 970-1029
    if ¬ e.wifi then (m, ⟨e.now + 1, 0, none⟩)
    else if ¬ e.heapOk then (m, ⟨e.now + 1, 0, none⟩)
    else if ¬ e.httpSlotFree then (m, ⟨1, 0, none⟩)
    else
      ({ m with hasRequest := true, state := .waitPost, reqEntries := 0,
                reqData := if sendConsumesBody then "" else m.reqData },
       ⟨1, -1, some ⟨"POST", "HTTP://pvoutput.org/service/r2/addbatchstatus.jsp",
                     m.reqData⟩⟩)
  | .waitPost =>
    -- lines 1031-1094; falling out of the switch returns 1
    if m.hasRequest ∧ e.reqDone then
      let m1 := { m with hasRequest := false }
      if e.responseCode ≠ 200 then
        let op0 := InterpretAddBatchStatusError e.responseCode e.responseText
        let op := if (op0 = .RETRY_NOW ∨ op0 = .RETRY_PERIOD) ∧ 10 ≤ m.retryCount
                  then ErrorOperation.RESET else op0
        match op with
        | .RETRY_NOW => ({ m1 with state := .sendPost }, ⟨e.now + 1, 1, none⟩)
        | .RETRY_PERIOD =>
          ({ m1 with state := .sendPost }, ⟨e.now + cfg.reportInterval, 1, none⟩)
        | .SKIP => waitPostSuccess m1
        | .RESET => ({ m1 with state := .queryLastPostTime }, ⟨1, 1, none⟩)
      else waitPostSuccess m1
    else (m, ⟨1, 0, none⟩)

/-- One tick of `pvoutputService`: lines 525-529 consume a raised
`pvoutputRestart` flag, forcing the state back to `initialize`, before the
switch runs. -/
def tick (cfg : Cfg) (m0 : Machine) (e : Env) : Machine × Output :=
  tickCore cfg
    (if m0.restart then { m0 with state := .stInit, restart := false } else m0) e

/-- The statics' initialisers (`pvoutput.cpp:501-515`) and the globals'
initialisers (lines 9-11): the service block is created with `state =
initialize`, empty buffers, `pvoutputRestart = true`, `pvoutputStarted = true`
(set by `pvoutputConfig` when it calls `NewService`). -/
def initMachine (now : Nat) : Machine :=
  { state := .stInit, stop := false, restart := true, started := true,
    configRevision := 0, reqData := "", reqEntries := 0, retryCount := 0,
    hasRequest := false, UnixNextPost := now }

/-- States reachable by ticking from a fresh service, using only environments
satisfying `P`; `raiseStop` models the web server or config loader setting the
process global `pvoutputStop` between ticks. -/
inductive ReachableW (cfg : Cfg) (P : Env → Prop) : Machine → Prop where
  | init : ∀ now, ReachableW cfg P (initMachine now)
  | step : ∀ m e, P e → ReachableW cfg P m → ReachableW cfg P (tick cfg m e).1
  | raiseStop : ∀ m, ReachableW cfg P m → ReachableW cfg P { m with stop := true }

/-- Reachability with unconstrained environments. -/
def Reachable (cfg : Cfg) (m : Machine) : Prop :=
  ReachableW cfg (fun _ => True) m

/-! ## The entry calculator (`PVOutputBuildPost`, lines 255-366)

The numeric part of `PVOutputBuildPost`, over `ℚ` in place of `double`.  A log
record carries `logHours` and the per-channel `accum1` accumulators; the
channel table lookup `inputChannel[ch]->_vchannel` is the function
`vchannelOf`. -/

/-- The fields of an `IotaLogRecord` the calculator reads. -/
structure IotaRec where
  UNIXtime : Nat
  logHours : ℚ
  accum1 : Int → ℚ

/-- The measurement tuple `PVOutputBuildPost` hands to `pvoutputSendData`,
plus the "Config appears incorrect" warning flag of lines 346-352. -/
structure EntryCalcOut where
  voltage : ℚ
  energyGenerated : ℚ
  powerGenerated : ℚ
  energyConsumed : ℚ
  powerConsumed : ℚ
  configWarn : Bool
deriving DecidableEq, Repr

/-- The computation of `PVOutputBuildPost` (`pvoutput.cpp:255-355`), line by
line: the solar energy (line 303) and solar power (line 326) are negated
whenever positive; a mains/solar power inconsistency (line 346) only sets the
warning flag.  There is no reversed-CT state anywhere in the function. -/
def PVOutputBuildPostCalc (mainsChannel solarChannel : Int) (vchannelOf : Int → Int)
    (oldRecord logRecord dayStartLogRecord : IotaRec) : EntryCalcOut :=
  let voltageChannel : Int :=
    if 0 ≤ mainsChannel then vchannelOf mainsChannel
    else if 0 ≤ solarChannel then vchannelOf solarChannel
    else -1
  let voltage : ℚ :=
    if 0 ≤ voltageChannel ∧ logRecord.logHours ≠ oldRecord.logHours then
      (logRecord.accum1 voltageChannel - oldRecord.accum1 voltageChannel) /
        (logRecord.logHours - oldRecord.logHours)
    else 0
  let energyGenerated : ℚ :=
    if 0 ≤ solarChannel then
      let eg := logRecord.accum1 solarChannel - dayStartLogRecord.accum1 solarChannel
      if 0 < eg then -eg else eg
    else 0
  let energyImported : ℚ :=
    if 0 ≤ mainsChannel then
      logRecord.accum1 mainsChannel - dayStartLogRecord.accum1 mainsChannel
    else 0
  let energyConsumed : ℚ := energyImported - energyGenerated
  let powerGenerated : ℚ :=
    if 0 ≤ solarChannel ∧ logRecord.logHours ≠ oldRecord.logHours then
      (let pg := logRecord.accum1 solarChannel - oldRecord.accum1 solarChannel
       if 0 < pg then -pg else pg) /
        (logRecord.logHours - oldRecord.logHours)
    else 0
  let powerImported : ℚ :=
    if 0 ≤ mainsChannel ∧ logRecord.logHours ≠ oldRecord.logHours then
      (logRecord.accum1 mainsChannel - oldRecord.accum1 mainsChannel) /
        (logRecord.logHours - oldRecord.logHours)
    else 0
  let powerConsumed : ℚ := powerImported - powerGenerated
  ⟨voltage, energyGenerated, powerGenerated, energyConsumed, powerConsumed,
   if powerImported < powerGenerated then true else false⟩

/-- `ZERO_TOL` of the specification's Entry Calculator (spec §4.2 step 8). -/
def specZeroTol : ℚ := 1

/-- The Entry Calculator as the specification (§4.2) describes it, used only
to compare the claim's wording against `PVOutputBuildPostCalc`: raw signed
energies and powers, sticky `reversed` flags applied before the check, and
inversion-plus-toggle only when `power_generated` exceeds `ZERO_TOL`.
Returns the entry together with the updated (mains, solar) reversed flags. -/
def specEntryCalculator (mainsChannel solarChannel : Int) (vchannelOf : Int → Int)
    (prev next dayStart : IotaRec) (mainsReversed solarReversed : Bool) :
    EntryCalcOut × Bool × Bool :=
  let logHours : ℚ := next.logHours - prev.logHours
  let voltageChannel : Int :=
    if 0 ≤ mainsChannel then vchannelOf mainsChannel
    else if 0 ≤ solarChannel then vchannelOf solarChannel
    else -1
  let voltage : ℚ :=
    if 0 ≤ voltageChannel ∧ logHours ≠ 0 then
      (next.accum1 voltageChannel - prev.accum1 voltageChannel) / logHours
    else 0
  let eg0 : ℚ :=
    if 0 ≤ solarChannel then next.accum1 solarChannel - dayStart.accum1 solarChannel else 0
  let ei0 : ℚ :=
    if 0 ≤ mainsChannel then next.accum1 mainsChannel - dayStart.accum1 mainsChannel else 0
  let pg0 : ℚ :=
    if 0 ≤ solarChannel ∧ logHours ≠ 0 then
      (next.accum1 solarChannel - prev.accum1 solarChannel) / logHours
    else 0
  let pi0 : ℚ :=
    if 0 ≤ mainsChannel ∧ logHours ≠ 0 then
      (next.accum1 mainsChannel - prev.accum1 mainsChannel) / logHours
    else 0
  -- step 7: apply the learned orientation
  let eg1 := if solarReversed then -eg0 else eg0
  let pg1 := if solarReversed then -pg0 else pg0
  let ei1 := if mainsReversed then -ei0 else ei0
  let pi1 := if mainsReversed then -pi0 else pi0
  -- step 8: CT orientation learning
  let solarFlip := specZeroTol < pg1
  let eg2 := if solarFlip then -eg1 else eg1
  let pg2 := if solarFlip then -pg1 else pg1
  let solarReversed1 := if solarFlip then ¬ solarReversed else solarReversed
  let mainsFlip := pi1 + specZeroTol < pg2 - specZeroTol
  let ei2 := if mainsFlip then -ei1 else ei1
  let pi2 := if mainsFlip then -pi1 else pi1
  let mainsReversed1 := if mainsFlip then ¬ mainsReversed else mainsReversed
  -- step 9
  (⟨voltage, eg2, pg2, ei2 - eg2, pi2 - pg2, false⟩, mainsReversed1, solarReversed1)

/-! ## The entry encoder (`pvoutputSendData`, lines 117-252)

The numeric normalisation the encoder applies before formatting the CSV
entry: lines 126-127 convert the internal negative-generation convention,
lines 142-164 clamp all four quantities at zero. -/

/-- The four values `(energyGenerated, powerGenerated, energyConsumed,
powerConsumed)` as they appear in the CSV entry built at lines 194-201. -/
def pvoutputSendDataVals (energyGenerated powerGenerated energyConsumed powerConsumed : ℚ) :
    ℚ × ℚ × ℚ × ℚ :=
  let eg0 := energyGenerated * (-1)
  let pg0 := powerGenerated * (-1)
  let eg1 := if eg0 < 0 then 0 else eg0
  let pg1 := if pg0 < 0 then 0 else pg0
  let ec1 := if energyConsumed < 0 then 0 else energyConsumed
  let pc1 := if powerConsumed < 0 then 0 else powerConsumed
  (eg1, pg1, ec1, pc1)

/-! ## The configuration loader (`pvoutputConfig`, lines 26-72)

`DynamicJsonBuffer.parseObject` either fails (`config.success()` false) or
yields a document; ArduinoJson's `as<T>` on the extracted keys is already
folded into the `ConfigDoc` fields.  The loader manipulates the process
globals modelled by `ConfigState`. -/

/-- The globals `pvoutputConfig` reads and writes. -/
structure ConfigState where
  configRevision : Int
  stop : Bool
  restart : Bool
  started : Bool
  systemId : Int
  mainsChannel : Int
  solarChannel : Int
  httpTimeout : Nat
  reportInterval : Int
  apiKey : Option String
deriving DecidableEq, Repr

/-- A successfully parsed config document (key extraction included). -/
structure ConfigDoc where
  revision : Int
  stop : Bool
  systemId : Int
  mainsChannel : Int
  solarChannel : Int
  httpTimeout : Nat
  reportInterval : Int
  apiKey : Option String
deriving DecidableEq, Repr

/-- `pvoutputConfig` (`pvoutput.cpp:26`): `none` is a document that failed
JSON parsing (line 31).  Returns the C `bool` result and the new globals;
`started := true` on line 63-67 stands for the `NewService` call. -/
def pvoutputConfigFun (s : ConfigState) (doc : Option ConfigDoc) : Bool × ConfigState :=
  match doc with
  | none => (false, s)
  | some c =>
    if c.revision = s.configRevision then (true, s)
    else
      let s1 := { s with configRevision := c.revision, stop := false }
      let s2 := if c.stop then { s1 with stop := true }
                else if s1.started then { s1 with restart := true } else s1
      let s3 := { s2 with systemId := c.systemId, mainsChannel := c.mainsChannel,
                          solarChannel := c.solarChannel, httpTimeout := c.httpTimeout,
                          reportInterval := c.reportInterval, apiKey := c.apiKey }
      let s4 := if ¬ s3.started then { s3 with started := true } else s3
      (true, s4)

/-! ## Concrete executions used by the counterexamples and witnesses

A configuration with the default five-minute interval, zone offset 0 and the
default `pvoutputBulkSend = 1`, and a benign environment: the log is open,
WiFi is up, the slot is free, the heap is fine, requests complete with a 200
and a well-formed `getstatus` body, the log extends to the far future, and
the calculator produces a realistic 52-character entry. -/

/-- Interval 300 s, zone offset 0, `bulkSend` 1 (the source default). -/
def cexCfg : Cfg := ⟨300, 0, 1⟩

/-- A benign environment for one tick. -/
def baseEnv : Env :=
  { now := 1700000000, logIsOpen := true, wifi := true, httpSlotFree := true,
    heapOk := true, reqDone := true, sendOk := true, responseCode := 200,
    responseText := "20180607,03:30,223,125,334,322,0.022,24.5,242.0",
    lastKey := 2000000000, elapsedZero := false,
    entry := "20231123,10:30,500.00,6000.00,600.00,7200.00,,240.10" }

/-- After tick 1 (`initialize`): in `queryLastPostTime`. -/
def cexM1 : Machine := (tick cexCfg (initMachine 1700000000) baseEnv).1

/-- After tick 2 (`queryLastPostTime`): request issued, in the wait state. -/
def cexM2 : Machine := (tick cexCfg cexM1 baseEnv).1

/-- After tick 3 (wait state, 200 reply): in `post` with an empty buffer. -/
def cexM3 : Machine := (tick cexCfg cexM2 baseEnv).1

/-- The benign environment with the shared HTTP slot held by another
reporter service (`HTTPrequestFree == 0`). -/
def envBusy : Env := { baseEnv with httpSlotFree := false }

/-- `n` further ticks under `envBusy`. -/
def collectN : Nat → Machine → Machine
  | 0, m => m
  | n + 1, m => collectN n (tick cexCfg m envBusy).1

/-- 76 collection ticks while the slot stays busy. -/
def cexMBig : Machine := collectN 76 cexM3

/-- The benign environment at a time just before the next post slot, so that
`UnixNextPost >= UNIXtime()` makes the collected entry a realtime post. -/
def envRT : Env := { baseEnv with now := 1698876000 }

/-- After one collection tick from `cexM3` under `envRT`: in `sendPost` with
one buffered entry. -/
def cexM4 : Machine := (tick cexCfg cexM3 envRT).1

/-- After the `sendPost` tick: batch POSTed, in `waitPost`. -/
def cexM5 : Machine := (tick cexCfg cexM4 envRT).1

/-- A completed 403 rate-limit response. -/
def envRateLimit : Env :=
  { envRT with responseCode := 403,
               responseText := "Forbidden 403: Exceeded 60 requests per hour" }

/-- A completed 200 response whose body is not a `getstatus` timestamp. -/
def envBadBody : Env := { baseEnv with responseText := "garbage" }

/-- The benign environment with `request->send()` reporting failure. -/
def envSendFail : Env := { baseEnv with sendOk := false }

/-- The reachable `queryLastPostTime` machine after the stop flag is raised. -/
def cexStopQ : Machine := { cexM1 with stop := true }

/-- The reachable `post` machine after the stop flag is raised. -/
def cexStopPost : Machine := { cexM3 with stop := true }

/-- A completed 400 response carrying the remote's "Moon Powered" message. -/
def envMoon : Env :=
  { envRT with responseCode := 400,
               responseText := "Bad request 400: Moon Powered" }

/-- The two `getstatus` example replies of the specification: midnight with
all-zero energies, and midnight with non-zero generation and consumption. -/
def zeroReply : String := "20180607,00:00,0,0,0,0,NaN,NaN,NaN"

/-- The non-zero-energy midnight reply. -/
def energyReply : String := "20180607,00:00,1000,0,1200,100,0.022,24.5,242.0"

/-- Channel table for the calculator examples: every input channel reports
voltage channel 2. -/
def c6vch : Int → Int := fun _ => 2

/-- Previous-post record for the calculator examples: all accumulators 0. -/
def c6old : IotaRec := ⟨1700000000, 0, fun _ => 0⟩

/-- Next-post record for the calculator examples: one more log hour, mains
(channel 0) accumulated 10, solar (channel 1) accumulated +1/2 — a raw solar
power of half a watt, positive but below the spec's 1.0 W tolerance — and
voltage accumulator (channel 2) 240. -/
def c6log : IotaRec :=
  ⟨1700000300, 1, fun i => if i = 0 then 10 else if i = 1 then 1/2 else
    if i = 2 then 240 else 0⟩

/-! ## Invariants -/

/-- Inductive invariant behind the amended C1: entry counting.  In `post` the
count is at most 29 and no request is held; in `sendPost` at most 30; in
every other state the buffer was just reset, so the count is 0; a raised
restart flag only exists on a fresh service; and the buffer never grows past
`4000 + L` when every encoded entry is at most `L` characters. -/
def C1Inv (L : Nat) (m : Machine) : Prop :=
  (m.state = .post → m.reqEntries ≤ 29 ∧ m.hasRequest = false) ∧
  (m.state = .sendPost → m.reqEntries ≤ 30) ∧
  (m.state ≠ .post ∧ m.state ≠ .sendPost → m.reqEntries = 0) ∧
  (m.restart = true → m.reqEntries = 0) ∧
  m.reqData.length ≤ 4000 + L

/-- Inductive invariant behind the amended C2: the retry counter is never
incremented anywhere in the live source, a wait state always holds the
request it is waiting for, and the restart flag is only ever up on a freshly
initialised service. -/
def C2Inv (m : Machine) : Prop :=
  m.retryCount = 0 ∧ (m.state = .waitPost → m.hasRequest = true) ∧
  (m.restart = true → m.state = .stInit)

/-! ## Supporting lemmas

The take-15 lemmas show the response parser reads nothing past the timestamp;
the `C1Inv`/`C2Inv` lemmas establish the inductive invariants; the
`reachable_*` lemmas record that the concrete machines of the witnesses and
counterexamples arise from a fresh service by honest ticks. -/

lemma take_drop_take15 (l : List Char) (p k : Nat) (h : p + k ≤ 15) :
    ((l.take 15).drop p).take k = (l.drop p).take k := by
  rw [List.drop_take, List.take_take, min_eq_left (by omega)]

lemma getD_take15 (l : List Char) (p : Nat) (d : Char) (h : p < 15) :
    (l.take 15).getD p d = l.getD p d := by
  rw [List.getD_eq_getElem?_getD, List.getD_eq_getElem?_getD, List.getElem?_take,
    if_pos h]

lemma PFI_take15 (l : List Char) (p k vmin vmax : Nat) (h : p + k ≤ 15) :
    ParseFixedInteger (l.take 15) (some p) k vmin vmax =
      ParseFixedInteger l (some p) k vmin vmax := by
  simp only [ParseFixedInteger, take_drop_take15 l p k h]

lemma PEC_take15 (l : List Char) (p : Nat) (c : Char) (h : p < 15) :
    ParseExpectedCharacter (l.take 15) (some p) c =
      ParseExpectedCharacter l (some p) c := by
  simp only [ParseExpectedCharacter, getD_take15 l p _ h]

lemma PFI_pos {l : List Char} {p k vmin vmax v q : Nat}
    (h : ParseFixedInteger l (some p) k vmin vmax = some (v, q)) : q = p + k := by
  simp only [ParseFixedInteger] at h
  rcases hs : scanU ((l.drop p).take k) with _ | w <;> rw [hs] at h
  · simp at h
  · simp only [] at h
    split at h
    · simp at h
    · simp only [Option.some.injEq, Prod.mk.injEq] at h
      omega

lemma PEC_pos {l : List Char} {p q : Nat} {c : Char}
    (h : ParseExpectedCharacter l (some p) c = some q) : q = p + 1 := by
  simp only [ParseExpectedCharacter] at h
  split at h
  · simp only [Option.some.injEq] at h
    omega
  · simp at h

lemma parseFields_take15 (l : List Char) :
    parseGetStatusFields (l.take 15) = parseGetStatusFields l := by
  unfold parseGetStatusFields
  rw [PFI_take15 l 0 4 0 9999 (by omega)]
  rcases h1 : ParseFixedInteger l (some 0) 4 0 9999 with _ | ⟨y, p1⟩
  · rfl
  · obtain rfl : p1 = 4 := by simpa using PFI_pos h1
    dsimp only
    rw [PFI_take15 l 4 2 1 12 (by omega)]
    rcases h2 : ParseFixedInteger l (some 4) 2 1 12 with _ | ⟨mo, p2⟩
    · rfl
    · obtain rfl : p2 = 6 := by simpa using PFI_pos h2
      dsimp only
      rw [PFI_take15 l 6 2 1 31 (by omega)]
      rcases h3 : ParseFixedInteger l (some 6) 2 1 31 with _ | ⟨d, p3⟩
      · rfl
      · obtain rfl : p3 = 8 := by simpa using PFI_pos h3
        dsimp only
        rw [PEC_take15 l 8 ',' (by omega)]
        rcases h4 : ParseExpectedCharacter l (some 8) ',' with _ | p4
        · rfl
        · obtain rfl : p4 = 9 := by simpa using PEC_pos h4
          dsimp only
          rw [PFI_take15 l 9 2 0 23 (by omega)]
          rcases h5 : ParseFixedInteger l (some 9) 2 0 23 with _ | ⟨hr, p5⟩
          · rfl
          · obtain rfl : p5 = 11 := by simpa using PFI_pos h5
            dsimp only
            rw [PEC_take15 l 11 ':' (by omega)]
            rcases h6 : ParseExpectedCharacter l (some 11) ':' with _ | p6
            · rfl
            · obtain rfl : p6 = 12 := by simpa using PEC_pos h6
              dsimp only
              rw [PFI_take15 l 12 2 0 59 (by omega)]
              rcases h7 : ParseFixedInteger l (some 12) 2 0 59 with _ | ⟨mi, p7⟩
              · rfl
              · obtain rfl : p7 = 14 := by simpa using PFI_pos h7
                dsimp only
                rw [PEC_take15 l 14 ',' (by omega)]

lemma clampEq (a : ℚ) : (if a < 0 then 0 else a) = max 0 a := by
  rcases lt_or_le a 0 with h | h
  · rw [if_pos h, max_eq_left h.le]
  · rw [if_neg (not_lt.mpr h), max_eq_right h]

lemma tick_eq_core {cfg : Cfg} {m : Machine} {e : Env} (h : m.restart = false) :
    tick cfg m e = tickCore cfg m e := by
  simp [tick, h]

lemma retry_period_ne_200 {c : Int} {t : String}
    (h : InterpretAddBatchStatusError c t = .RETRY_PERIOD) : c ≠ 200 := by
  intro hc
  subst hc
  simp [InterpretAddBatchStatusError] at h

lemma C2Inv_core (cfg : Cfg) (m : Machine) (e : Env) (hre : m.restart = false)
    (h : C2Inv m) : C2Inv (tickCore cfg m e).1 := by
  obtain ⟨h1, h2, h3⟩ := h
  obtain ⟨st, stp, rst, strt, rev, rd, ents, rc, hrq, unp⟩ := m
  simp only at hre h1
  subst hre h1
  cases st <;>
    (simp only [tickCore, postTrigger, waitPostSuccess]
     split_ifs <;> (repeat' split) <;> simp_all [C2Inv])

lemma C2Inv_step (cfg : Cfg) (m : Machine) (e : Env) (h : C2Inv m) :
    C2Inv (tick cfg m e).1 := by
  unfold tick
  by_cases hr : m.restart
  · simp only [hr, if_true]
    exact C2Inv_core cfg _ e rfl ⟨h.1, by simp, by simp⟩
  · simp only [hr, if_false]
    exact C2Inv_core cfg m e (by simpa using hr) h

lemma reachable_C2Inv {cfg : Cfg} {P : Env → Prop} {m : Machine}
    (h : ReachableW cfg P m) : C2Inv m := by
  induction h with
  | init now => exact ⟨rfl, by simp [initMachine], by simp [initMachine]⟩
  | step m e hP hr ih => exact C2Inv_step cfg m e ih
  | raiseStop m hr ih => exact ⟨ih.1, ih.2.1, ih.2.2⟩

lemma semicolonLen : (";" : String).length = 1 := rfl

lemma postDataHeadLen : postDataHead.length = 14 := rfl

lemma C1Inv_core (cfg : Cfg) (L : Nat) (m : Machine) (e : Env)
    (hre : m.restart = false) (hfree : e.httpSlotFree = true)
    (hlen : e.entry.length ≤ L) (h : C1Inv L m) : C1Inv L (tickCore cfg m e).1 := by
  obtain ⟨h1, h2, h3, h4, h5⟩ := h
  obtain ⟨st, stp, rst, strt, rev, rd, ents, rc, hrq, unp⟩ := m
  simp only at hre
  subst hre
  simp only [C1Inv] at h1 h2 h3 h4 h5 ⊢
  cases st <;>
    (simp only [tickCore, postTrigger, waitPostSuccess]
     split_ifs <;> (repeat' split) <;>
       simp_all [String.length_append, semicolonLen, postDataHeadLen] <;> omega)

lemma C1Inv_step (cfg : Cfg) (L : Nat) (m : Machine) (e : Env)
    (hfree : e.httpSlotFree = true) (hlen : e.entry.length ≤ L)
    (h : C1Inv L m) : C1Inv L (tick cfg m e).1 := by
  unfold tick
  by_cases hr : m.restart = true
  · simp only [hr, if_true]
    refine C1Inv_core cfg L _ e rfl hfree hlen ?_
    obtain ⟨h1, h2, h3, h4, h5⟩ := h
    exact ⟨by simp, by simp, fun _ => h4 hr, by simp, h5⟩
  · simp only [hr, if_false]
    exact C1Inv_core cfg L m e (by simpa using hr) hfree hlen h

lemma reachable_cexM1 : Reachable cexCfg cexM1 :=
  ReachableW.step (initMachine 1700000000) baseEnv trivial (ReachableW.init 1700000000)

lemma reachable_cexM2 : Reachable cexCfg cexM2 :=
  ReachableW.step cexM1 baseEnv trivial reachable_cexM1

lemma reachable_cexM3 : Reachable cexCfg cexM3 :=
  ReachableW.step cexM2 baseEnv trivial reachable_cexM2

lemma reachable_cexM4 : Reachable cexCfg cexM4 :=
  ReachableW.step cexM3 envRT trivial reachable_cexM3

lemma reachable_cexM5 : Reachable cexCfg cexM5 :=
  ReachableW.step cexM4 envRT trivial reachable_cexM4

lemma reachable_collectN (n : Nat) :
    ∀ m : Machine, Reachable cexCfg m → Reachable cexCfg (collectN n m) := by
  induction n with
  | zero => exact fun m h => h
  | succ k ih => exact fun m h => ih _ (ReachableW.step m envBusy trivial h)

/-! ## The claims -/

set_option maxRecDepth 40000 in
/-- C1 is false as stated.  Starting from a fresh service, one `getstatus`
round followed by 76 collection ticks during which another reporter holds the
shared HTTP slot reaches a state with 76 buffered entries and a 4041-byte
request body: the collection guard (line 886) only checks the length *before*
appending and nothing bounds `reqEntries` while the `sendPost` transition is
blocked on the slot. -/
theorem c1_counterexample :
    Reachable cexCfg cexMBig ∧ cexMBig.reqEntries = 76 ∧
    cexMBig.reqData.length = 4041 ∧
    ¬ (cexMBig.reqEntries ≤ 30 ∧ cexMBig.reqData.length ≤ 4000) := by
  have hnum : cexMBig.reqEntries = 76 ∧ cexMBig.reqData.length = 4041 := by decide
  refine ⟨reachable_collectN 76 cexM3 reachable_cexM3, hnum.1, hnum.2, ?_⟩
  rintro ⟨ha, hb⟩
  rw [hnum.1] at ha
  omega

/-- C1, amended: an entry is appended only while `len(req_data) < 4000`, so
along any run in which the shared HTTP slot is free at every tick and every
encoded entry is at most `L` characters, every reachable state satisfies
`req_entries ≤ 30` and `len(req_data) ≤ 4000 + L`.  The 30-entry bound is
restored by the `MAX_BULK_SEND` posting trigger firing as soon as the count
reaches 30; the length bound degrades by up to one entry. -/
theorem c1_amended (cfg : Cfg) (L : Nat) (m : Machine)
    (h : ReachableW cfg (fun e => e.httpSlotFree = true ∧ e.entry.length ≤ L) m) :
    m.reqEntries ≤ 30 ∧ m.reqData.length ≤ 4000 + L := by
  have hinv : C1Inv L m := by
    induction h with
    | init now =>
      exact ⟨by simp [initMachine], by simp [initMachine],
        fun _ => by simp [initMachine], fun _ => by simp [initMachine],
        by simp [initMachine]⟩
    | step m e hP hr ih => exact C1Inv_step cfg L m e hP.1 hP.2 ih
    | raiseStop m hr ih => exact ih
  obtain ⟨h1, h2, h3, h4, h5⟩ := hinv
  refine ⟨?_, h5⟩
  by_cases hp : m.state = .post
  · exact le_trans (h1 hp).1 (by omega)
  · by_cases hsp : m.state = .sendPost
    · exact h2 hsp
    · rw [h3 ⟨hp, hsp⟩]
      omega

/-- C1 witness: the amended invariant applied to the concrete machine reached
by the three-tick startup run under a free slot and 52-character entries. -/
theorem c1_witness :
    cexM3.reqEntries ≤ 30 ∧ cexM3.reqData.length ≤ 4000 + 52 :=
  c1_amended cexCfg 52 cexM3
    (ReachableW.step cexM2 baseEnv ⟨rfl, by decide⟩
      (ReachableW.step cexM1 baseEnv ⟨rfl, by decide⟩
        (ReachableW.step (initMachine 1700000000) baseEnv ⟨rfl, by decide⟩
          (ReachableW.init 1700000000))))

/-- C2 is false as stated.  In the reachable wait state holding one posted
entry, a completed `403 Exceeded 60 requests per hour` response schedules the
retry one `report_interval` later with the same buffer, but the retry counter
stays 0: it is not incremented (nothing in the live source increments it). -/
theorem c2_counterexample :
    Reachable cexCfg cexM5 ∧ cexM5.state = .waitPost ∧ cexM5.retryCount = 0 ∧
    (tick cexCfg cexM5 envRateLimit).1.retryCount = 0 ∧
    (tick cexCfg cexM5 envRateLimit).1.retryCount ≠ cexM5.retryCount + 1 ∧
    (tick cexCfg cexM5 envRateLimit).2.ret = envRateLimit.now + cexCfg.reportInterval ∧
    (tick cexCfg cexM5 envRateLimit).1.reqData = cexM5.reqData ∧
    (tick cexCfg cexM5 envRateLimit).1.state = .sendPost := by
  refine ⟨reachable_cexM5, ?_, ?_, ?_, ?_, ?_, ?_, ?_⟩ <;> decide

/-- C2, amended: from every reachable wait state, a completed response
classified `RETRY_PERIOD` (403 rate-limit or 400 date-in-the-future) sends
the machine back to `sendPost` with the identical request buffer and a retry
scheduled one `report_interval` later — and this holds for any number of
consecutive such failures, because the retry counter is 0 in every reachable
state: the live code never increments it, which also makes the
`retryCount >= 10` reset guard at line 1047 unreachable.  (The counter is
*not* incremented, contrary to the claim.) -/
theorem c2_amended (cfg : Cfg) (m : Machine) (e : Env) (h : Reachable cfg m)
    (hst : m.state = .waitPost) (hd : e.reqDone = true)
    (hop : InterpretAddBatchStatusError e.responseCode e.responseText = .RETRY_PERIOD) :
    m.retryCount = 0 ∧
    tick cfg m e =
      ({ m with hasRequest := false, state := .sendPost },
       ⟨e.now + cfg.reportInterval, 1, none⟩) := by
  obtain ⟨h1, h2, h3⟩ := reachable_C2Inv h
  have hhr : m.hasRequest = true := h2 hst
  have hcode : e.responseCode ≠ 200 := retry_period_ne_200 hop
  have hre : m.restart = false := by
    rcases hb : m.restart with _ | _
    · rfl
    · exact absurd ((h3 hb).symm.trans hst) (by simp)
  refine ⟨h1, ?_⟩
  rw [tick_eq_core hre]
  obtain ⟨st, stp, rst, strt, rev, rd, ents, rc, hrq, unp⟩ := m
  simp only at hst hhr h1
  subst hst hhr h1
  simp [tickCore, hd, hcode, hop]

/-- C2 witness: the amended behaviour evaluated at the concrete reachable
wait state under the concrete rate-limit response. -/
theorem c2_witness :
    cexM5.retryCount = 0 ∧
    tick cexCfg cexM5 envRateLimit =
      ({ cexM5 with hasRequest := false, state := .sendPost },
       ⟨envRateLimit.now + cexCfg.reportInterval, 1, none⟩) :=
  c2_amended cexCfg cexM5 envRateLimit reachable_cexM5 (by decide) (by decide) (by decide)

/-- C3 is false as stated.  With the stop flag raised while the machine is in
`queryLastPostTime`, the very next tick does not observe it: it issues the
`getstatus` request, moves to the wait state and returns 1 — neither a stop
nor the deschedule sentinel 0.  Only the `post` state checks `pvoutputStop`
(line 767). -/
theorem c3_counterexample :
    Reachable cexCfg cexStopQ ∧ cexStopQ.stop = true ∧
    cexStopQ.state = .queryLastPostTime ∧
    (tick cexCfg cexStopQ baseEnv).1.state = .queryLastPostTimeWait ∧
    (tick cexCfg cexStopQ baseEnv).1.state ≠ .stInit ∧
    (tick cexCfg cexStopQ baseEnv).2.ret = 1 ∧
    (tick cexCfg cexStopQ baseEnv).2.ret ≠ 0 := by
  refine ⟨ReachableW.raiseStop cexM1 reachable_cexM1, ?_, ?_, ?_, ?_, ?_, ?_⟩ <;> decide

/-- C3, amended: only the `post` state observes the stop flag.  A `post` tick
with the flag raised and no unfinished in-flight request stops the service:
`pvoutputStarted := false`, state reset to `initialize`, request and buffers
dropped, config revision set to -1, and the deschedule sentinel 0 returned. -/
theorem c3_amended (cfg : Cfg) (m : Machine) (e : Env) (hst : m.state = .post)
    (hstop : m.stop = true) (hre : m.restart = false)
    (hreq : m.hasRequest = false ∨ e.reqDone = true) :
    tick cfg m e =
      ({ m with started := false, state := .stInit, hasRequest := false,
                reqData := "", reqEntries := 0, configRevision := -1 },
       ⟨0, 0, none⟩) := by
  rw [tick_eq_core hre]
  obtain ⟨st, stp, rst, strt, rev, rd, ents, rc, hrq, unp⟩ := m
  subst hst
  rcases hreq with h | h <;> simp_all [tickCore]

/-- C3 witness: the amended stop behaviour evaluated at the concrete
reachable `post` machine with the stop flag raised. -/
theorem c3_witness :
    tick cexCfg cexStopPost baseEnv =
      ({ cexStopPost with
          started := false, state := .stInit, hasRequest := false,
          reqData := "", reqEntries := 0, configRevision := -1 },
       ⟨0, 0, none⟩) :=
  c3_amended cexCfg cexStopPost baseEnv (by decide) (by decide) (by decide)
    (Or.inl (by decide))

/-- C4: a 400 response containing "Moon Powered" (or "Moon powered") gets no
dedicated classification — `InterpretAddBatchStatusError` has no such case and
falls through to `RESET` — and a reachable wait state receiving it therefore
resets to the query state, keeping its buffered entries and not advancing as
if the post had succeeded.  This contradicts the function's own comment
taxonomy, which lists "Bad request 400: Moon Powered" among the errors "that
we skip". -/
theorem c4_moon_powered_is_reset :
    InterpretAddBatchStatusError 400 "Bad request 400: Moon Powered" =
      ErrorOperation.RESET ∧
    InterpretAddBatchStatusError 400 "Moon powered" = ErrorOperation.RESET ∧
    ErrorOperation.RESET ≠ ErrorOperation.SKIP ∧
    Reachable cexCfg cexM5 ∧
    (tick cexCfg cexM5 envMoon).1.state = .queryLastPostTime ∧
    (tick cexCfg cexM5 envMoon).1.state ≠ .post ∧
    (tick cexCfg cexM5 envMoon).1.reqData = cexM5.reqData ∧
    (tick cexCfg cexM5 envMoon).2.ret = 1 := by
  refine ⟨?_, ?_, ?_, reachable_cexM5, ?_, ?_, ?_, ?_⟩ <;> decide

/-- C5 is false as stated.  The spec's energy-bearing midnight reply
`20180607,00:00,1000,0,1200,100,...` parses to 00:00:00 of that very day
(local unixtime 1528329600), not to 23:59:59 of the previous day
(1528329599): the code never inspects the energy fields. -/
theorem c5_counterexample :
    parseGetStatusLocalDT energyReply = some (dtUnixtime 2018 6 7 0 0 0) ∧
    dtUnixtime 2018 6 7 0 0 0 = 1528329600 ∧
    dtUnixtime 2018 6 6 23 59 59 = 1528329599 ∧
    parseGetStatusLocalDT energyReply ≠ some (dtUnixtime 2018 6 6 23 59 59) := by
  decide

/-- C5, amended: the `getstatus` parser never reads past the 15-character
`YYYYMMDD,HH:MM,` timestamp, so the energy-generation and energy-consumption
fields cannot influence the returned datetime; in particular both spec
example replies — all-zero energies and non-zero energies — yield the same
start-of-day 00:00:00. -/
theorem c5_amended :
    (∀ s t : String, s.data.take 15 = t.data.take 15 →
      parseGetStatusLocalDT s = parseGetStatusLocalDT t) ∧
    parseGetStatusLocalDT zeroReply = some (dtUnixtime 2018 6 7 0 0 0) ∧
    parseGetStatusLocalDT energyReply = some (dtUnixtime 2018 6 7 0 0 0) := by
  refine ⟨fun s t h => ?_, by decide, by decide⟩
  unfold parseGetStatusLocalDT
  rw [← parseFields_take15 s.data, ← parseFields_take15 t.data, h]

/-- C5 witness: the prefix-independence of the amended claim applied to the
two concrete example replies, which share their first 15 characters. -/
theorem c5_witness :
    parseGetStatusLocalDT zeroReply = parseGetStatusLocalDT energyReply :=
  c5_amended.1 zeroReply energyReply (by decide)

/-- C6 is false as stated.  With a raw solar power of 1/2 W — positive but
not exceeding `ZERO_TOL = 1` — the code inverts solar energy and power
anyway, while the specification's calculator (with both reversed flags clear)
leaves them at +1/2 and toggles nothing; the code has no `solar_reversed`
state at all, so the inversion recurs on every evaluation instead of being
learned once. -/
theorem c6_counterexample :
    (PVOutputBuildPostCalc 0 1 c6vch c6old c6log c6old).powerGenerated = -(1/2) ∧
    (PVOutputBuildPostCalc 0 1 c6vch c6old c6log c6old).energyGenerated = -(1/2) ∧
    (specEntryCalculator 0 1 c6vch c6old c6log c6old false false).1.powerGenerated = 1/2 ∧
    (specEntryCalculator 0 1 c6vch c6old c6log c6old false false).2 = (false, false) ∧
    (PVOutputBuildPostCalc 0 1 c6vch c6old c6log c6old).powerGenerated ≠
      (specEntryCalculator 0 1 c6vch c6old c6log c6old false false).1.powerGenerated ∧
    ¬ specZeroTol < (1/2 : ℚ) := by
  have hcode : PVOutputBuildPostCalc 0 1 c6vch c6old c6log c6old =
      ⟨240, -(1/2), -(1/2), 21/2, 21/2, false⟩ := by
    unfold PVOutputBuildPostCalc c6vch c6old c6log
    norm_num
  have hspec : specEntryCalculator 0 1 c6vch c6old c6log c6old false false =
      (⟨240, 1/2, 1/2, 19/2, 19/2, false⟩, false, false) := by
    unfold specEntryCalculator specZeroTol c6vch c6old c6log
    norm_num
  rw [hcode, hspec]
  unfold specZeroTol
  norm_num

/-- C6, amended: the calculator forces the solar quantities non-positive
unconditionally — whenever a solar channel is configured and log hours
advanced, `energy_generated ≤ 0` and `power_generated ≤ 0` — with no 1.0 W
tolerance, no sticky reversed flag, and (line 346) only a logged warning for
a mains/solar inconsistency. -/
theorem c6_amended (mainsChannel solarChannel : Int) (vch : Int → Int)
    (oldR logR dayR : IotaRec) (hs : 0 ≤ solarChannel)
    (hh : oldR.logHours < logR.logHours) :
    (PVOutputBuildPostCalc mainsChannel solarChannel vch oldR logR dayR).energyGenerated ≤ 0 ∧
    (PVOutputBuildPostCalc mainsChannel solarChannel vch oldR logR dayR).powerGenerated ≤ 0 := by
  have hne : logR.logHours ≠ oldR.logHours := (ne_of_gt hh)
  have hd : 0 < logR.logHours - oldR.logHours := sub_pos.mpr hh
  unfold PVOutputBuildPostCalc
  dsimp only
  constructor
  · rw [if_pos hs]
    split_ifs with h
    · linarith
    · linarith
  · rw [if_pos ⟨hs, hne⟩]
    apply div_nonpos_iff.mpr
    right
    constructor
    · split_ifs with h <;> linarith
    · exact hd.le

/-- C6 witness: the amended non-positivity evaluated on the concrete example
records. -/
theorem c6_witness :
    (PVOutputBuildPostCalc 0 1 c6vch c6old c6log c6old).energyGenerated ≤ 0 ∧
    (PVOutputBuildPostCalc 0 1 c6vch c6old c6log c6old).powerGenerated ≤ 0 :=
  c6_amended 0 1 c6vch c6old c6log c6old (by norm_num)
    (by unfold c6old c6log; norm_num)

/-- C7 is false as stated.  A completed 200 `getstatus` reply whose body
fails timestamp parsing makes the reachable wait state raise the process
stop flag and move to the `post` state returning 1 (lines 693-700) — it does
not return to the query state with a 1-second retry. -/
theorem c7_counterexample :
    Reachable cexCfg cexM2 ∧ cexM2.state = .queryLastPostTimeWait ∧
    envBadBody.responseCode = 200 ∧
    (tick cexCfg cexM2 envBadBody).1.state = .post ∧
    (tick cexCfg cexM2 envBadBody).1.state ≠ .queryLastPostTime ∧
    (tick cexCfg cexM2 envBadBody).1.stop = true ∧
    (tick cexCfg cexM2 envBadBody).2.ret = 1 := by
  refine ⟨reachable_cexM2, ?_, ?_, ?_, ?_, ?_, ?_⟩ <;> decide

/-- C7, amended: on a parse failure of a completed 200 reply, the wait state
sets `pvoutputStop := true`, transitions to `post`, and returns 1; the next
`post` tick then shuts the service down instead of retrying the query. -/
theorem c7_amended (cfg : Cfg) (m : Machine) (e : Env)
    (hst : m.state = .queryLastPostTimeWait) (hre : m.restart = false)
    (hd : e.reqDone = true) (hc : e.responseCode = 200)
    (hp : parseGetStatusFields e.responseText.data = none) :
    tick cfg m e =
      ({ m with hasRequest := false, stop := true, state := .post }, ⟨1, 1, none⟩) := by
  rw [tick_eq_core hre]
  obtain ⟨st, stp, rst, strt, rev, rd, ents, rc, hrq, unp⟩ := m
  subst hst
  simp_all [tickCore]

/-- C7 witness: the amended parse-failure behaviour evaluated at the concrete
reachable wait state and the "garbage" reply. -/
theorem c7_witness :
    tick cexCfg cexM2 envBadBody =
      ({ cexM2 with hasRequest := false, stop := true, state := .post },
       ⟨1, 1, none⟩) :=
  c7_amended cexCfg cexM2 envBadBody (by decide) (by decide) (by decide) (by decide)
    (by decide)

/-- C8 is false as stated.  `queryLastPostTime` opens a POST — not a GET — to
the `getstatus.jsp` URL, and when `send()` fails the slot is not released
(the tick's net slot change stays -1) and the machine still transitions to
the wait state returning 1 instead of retrying in 5 seconds; the failure is
only logged (line 585-588). -/
theorem c8_counterexample :
    Reachable cexCfg cexM1 ∧ cexM1.state = .queryLastPostTime ∧
    envSendFail.sendOk = false ∧
    (tick cexCfg cexM1 envSendFail).2.issued =
      some ⟨"POST", "HTTP://pvoutput.org/service/r2/getstatus.jsp", ""⟩ ∧
    "POST" ≠ "GET" ∧
    (tick cexCfg cexM1 envSendFail).1.state = .queryLastPostTimeWait ∧
    (tick cexCfg cexM1 envSendFail).2.slotDelta = -1 ∧
    (tick cexCfg cexM1 envSendFail).2.ret = 1 := by
  refine ⟨reachable_cexM1, ?_, ?_, ?_, ?_, ?_, ?_, ?_⟩ <;> decide

/-- C8, amended: `queryLastPostTime` retries in 1 s while WiFi is down or no
slot is free; otherwise it acquires the slot, issues a POST to
`http://pvoutput.org/service/r2/getstatus.jsp` with an empty body and
transitions to `queryLastPostTimeWait` returning 1, regardless of whether
`send()` reported success. -/
theorem c8_amended (cfg : Cfg) (m : Machine) (e : Env)
    (hst : m.state = .queryLastPostTime) (hre : m.restart = false) :
    (e.wifi = false ∨ e.httpSlotFree = false →
      tick cfg m e = (m, ⟨e.now + 1, 0, none⟩)) ∧
    (e.wifi = true → e.httpSlotFree = true →
      tick cfg m e =
        ({ m with state := .queryLastPostTimeWait, hasRequest := true, reqData := "" },
         ⟨1, -1, some ⟨"POST", "HTTP://pvoutput.org/service/r2/getstatus.jsp", ""⟩⟩)) := by
  rw [tick_eq_core hre]
  obtain ⟨st, stp, rst, strt, rev, rd, ents, rc, hrq, unp⟩ := m
  subst hst
  constructor
  · rintro (h | h) <;> simp_all [tickCore]
  · intro h1 h2
    simp_all [tickCore]

/-- C8 witness: the amended query behaviour evaluated at the concrete
reachable query-state machine under the benign environment. -/
theorem c8_witness :
    tick cexCfg cexM1 baseEnv =
      ({ cexM1 with state := .queryLastPostTimeWait, hasRequest := true, reqData := "" },
       ⟨1, -1, some ⟨"POST", "HTTP://pvoutput.org/service/r2/getstatus.jsp", ""⟩⟩) :=
  (c8_amended cexCfg cexM1 baseEnv (by decide) (by decide)).2 rfl rfl

/-- C9: `pvoutputSendData` first multiplies the generation values by -1
(undoing the internal negative-generation convention) and then clamps each of
the four quantities at zero, so the values placed in every encoded CSV entry
are exactly `max 0 (-eg)`, `max 0 (-pg)`, `max 0 ec`, `max 0 pc` — all
non-negative. -/
theorem c9_encoder_clamp (eg pg ec pc : ℚ) :
    pvoutputSendDataVals eg pg ec pc = (max 0 (-eg), max 0 (-pg), max 0 ec, max 0 pc) ∧
    0 ≤ (pvoutputSendDataVals eg pg ec pc).1 ∧
    0 ≤ (pvoutputSendDataVals eg pg ec pc).2.1 ∧
    0 ≤ (pvoutputSendDataVals eg pg ec pc).2.2.1 ∧
    0 ≤ (pvoutputSendDataVals eg pg ec pc).2.2.2 := by
  have h : pvoutputSendDataVals eg pg ec pc =
      (max 0 (-eg), max 0 (-pg), max 0 ec, max 0 pc) := by
    simp only [pvoutputSendDataVals, mul_neg_one, clampEq]
  refine ⟨h, ?_, ?_, ?_, ?_⟩ <;> rw [h] <;> exact le_max_left _ _

/-- C10: a document that fails JSON parsing makes `pvoutputConfig` return
`false` before touching anything: the stored revision, the stop/restart
flags, every per-field configuration variable and the service-started flag
come back exactly as they were — the failed load is atomic. -/
theorem c10_parse_failure_atomic (s : ConfigState) :
    pvoutputConfigFun s none = (false, s) := rfl

end PVOutput
